import Mathlib

/-!
Verification of the camera color picker component: a shallow embedding of `src/unnamed/part_000` (the `CameraColorPicker`
React component, draggable-points revision, lines 279-635).  Pure helpers
(`rgbToHex`, percentage-to-pixel conversion, clamping) become Lean
functions on `Nat`/`ℚ`/`ℤ`; the component's mutable state becomes an
explicit `ComponentState` record and each handler becomes a state
transformer that also reports its observable effects (toasts, stopped
stream tracks, scheduled timers, clipboard writes, console errors).
-/

namespace PixelPicker

/-! ## Hex conversion (source lines 309-311)

`rgbToHex = (r,g,b) => \x23 + [r,g,b].map(x => x.toString(16).padStart(2,'0')).join('')`.
Channel values come from a `Uint8ClampedArray`, so they are naturals. -/

/-- The character JavaScript uses for one base-16 digit (lowercase). -/
def hexChar : Nat → Char
  | 0 => '0' | 1 => '1' | 2 => '2' | 3 => '3' | 4 => '4'
  | 5 => '5' | 6 => '6' | 7 => '7' | 8 => '8' | 9 => '9'
  | 10 => 'a' | 11 => 'b' | 12 => 'c' | 13 => 'd' | 14 => 'e'
  | 15 => 'f' | _ => '?'

/-- Digit accumulator for `toString16`; the fuel argument only bounds the
recursion depth (`n + 1` is always enough, since `n / 16 < n`). -/
def toString16Core : Nat → Nat → List Char
  | _, 0 => []
  | n, fuel + 1 =>
    if n < 16 then [hexChar n]
    else toString16Core (n / 16) fuel ++ [hexChar (n % 16)]

/-- JavaScript `x.toString(16)` for a natural number: most-significant digit first,
no leading zeros, a single digit for inputs below 16. -/
def toString16 (n : Nat) : String :=
  String.mk (toString16Core n (n + 1))

/-- JavaScript `s.padStart(len, c)`: left-pad `s` with `c` up to length `len`. -/
def padStart (s : String) (len : Nat) (c : Char) : String :=
  String.mk (List.replicate (len - s.length) c) ++ s

/-- The per-channel map `x => x.toString(16).padStart(2, '0')`. -/
def hexPair (v : Nat) : String :=
  padStart (toString16 v) 2 '0'

/-- The source function `rgbToHex`: hash sign followed by the three padded
channel pairs joined together. -/
def rgbToHex (r g b : Nat) : String :=
  "#" ++ String.join ([r, g, b].map hexPair)

/-- A character is a lowercase hexadecimal digit. -/
def isLowerHexDigit (c : Char) : Bool :=
  ('0' ≤ c && c ≤ '9') || ('a' ≤ c && c ≤ 'f')

/-! ## Data model (source lines 285-307) -/

/-- The `rgb` field of `ColorData`. -/
structure Rgb where
  r : Nat
  g : Nat
  b : Nat
deriving Repr, DecidableEq

/-- The source interface ColorData with hex string and r, g, b channels. -/
structure ColorData where
  hex : String
  rgb : Rgb
deriving Repr, DecidableEq

/-- The fallback / initial sample `{ hex: '#000000', rgb: { r: 0, g: 0, b: 0 } }`. -/
def black : ColorData :=
  { hex := "#000000", rgb := ⟨0, 0, 0⟩ }

/-- The source interface SamplingPoint with x, y — percentages in the source's
intent; JavaScript numbers are modelled as rationals. -/
structure SamplingPoint where
  x : ℚ
  y : ℚ
deriving Repr, DecidableEq

/-- The `isDragging` discriminator `'top' | 'bottom'`. -/
inductive DragTarget where
  | top
  | bottom
deriving Repr, DecidableEq

/-- The component's mutable state: `isActive`, the two color samples, the
copied-color flag, the two sampling points, the drag discriminator and the
stream ref (streams are identified by numeric ids). -/
structure ComponentState where
  isActive : Bool
  topColor : ColorData
  bottomColor : ColorData
  copiedColor : Option String
  topPoint : SamplingPoint
  bottomPoint : SamplingPoint
  isDragging : Option DragTarget
  streamRef : Option Nat
deriving Repr, DecidableEq

/-- The initial `useState` values (source lines 300-306). -/
def initialState : ComponentState :=
  { isActive := false
    topColor := black
    bottomColor := black
    copiedColor := none
    topPoint := ⟨50, 20⟩
    bottomPoint := ⟨50, 80⟩
    isDragging := none
    streamRef := none }

/-! ## Browser environment seen by the sampler -/

/-- A video frame: natural dimensions and a pixel read.  `pixel` models
`ctx.getImageData(x, y, 1, 1)` after the frame was drawn at the frame's
native resolution; it is total on `ℤ × ℤ`, leaving boundary behaviour to
the frame model. -/
structure Frame where
  width : Nat
  height : Nat
  pixel : ℤ → ℤ → Rgb

/-- The refs the sampling callbacks dereference: `videoRef.current`
(with the playing frame when present), `canvasRef.current`, and whether
`canvas.getContext('2d')` returns a context. -/
structure Env where
  video : Option Frame
  canvasPresent : Bool
  ctxAvailable : Bool

/-- The source function `getColorAtPoint` (lines 313-335): black fallback when the
video ref, the canvas ref or the 2D context is unavailable, otherwise a
single-pixel read converted through `rgbToHex`. -/
def getColorAtPoint (env : Env) (x y : ℤ) : ColorData :=
  match env.video, env.canvasPresent with
  | none, _ => black
  | _, false => black
  | some frame, true =>
    if env.ctxAvailable = false then black
    else
      let p := frame.pixel x y
      { hex := rgbToHex p.r p.g p.b, rgb := p }

/-- The expression `Math.floor((percent / 100) * dimension)` — the per-axis conversion
inside `updateColors` (source lines 343-346).  `Int.floor` is the floor
toward negative infinity, as `Math.floor` is. -/
def percentToPixel (p : ℚ) (d : Nat) : ℤ :=
  ⌊p / 100 * d⌋

/-- The source function `updateColors` (lines 337-354): bail out when the video ref is
gone or the component inactive; skip while either natural dimension is 0
(JavaScript truthiness of `video.videoWidth && video.videoHeight`);
otherwise convert both points per axis and replace both samples. -/
def updateColors (env : Env) (s : ComponentState) : ComponentState :=
  match env.video with
  | none => s
  | some video =>
    if s.isActive = false then s
    else if video.width ≠ 0 ∧ video.height ≠ 0 then
      let topX := percentToPixel s.topPoint.x video.width
      let topY := percentToPixel s.topPoint.y video.height
      let bottomX := percentToPixel s.bottomPoint.x video.width
      let bottomY := percentToPixel s.bottomPoint.y video.height
      { s with
        topColor := getColorAtPoint env topX topY
        bottomColor := getColorAtPoint env bottomX bottomY }
    else s

/-- The sampling-interval effect (source lines 396-401): the effect
returns early when `isActive` is false and its cleanup clears the
interval, so a 100ms interval is scheduled exactly while the component is
active. -/
def samplingTimerActive (s : ComponentState) : Bool :=
  s.isActive

/-! ## Toasts and observable effects -/

/-- One `toast({ title, description, variant? })` call. -/
structure Toast where
  title : String
  description : String
  destructive : Bool
deriving Repr, DecidableEq

/-- Toast emitted on source lines 419-422. -/
def cameraStartedToast : Toast :=
  ⟨"Camera Started", "Color sampling is now active", false⟩

/-- Toast emitted on source lines 425-429 (destructive variant). -/
def cameraErrorToast : Toast :=
  ⟨"Camera Error", "Unable to access camera. Please check permissions.", true⟩

/-- Toast emitted on source lines 439-442. -/
def cameraStoppedToast : Toast :=
  ⟨"Camera Stopped", "Color sampling has been disabled", false⟩

/-- Toast emitted on source lines 450-453. -/
def copiedToast (hex : String) : Toast :=
  ⟨"Copied!", "Color " ++ hex ++ " copied to clipboard", false⟩

/-- Everything a handler does besides updating component state: toasts
emitted, ids of streams whose tracks were stopped, `console.error`
calls, `setTimeout` delays scheduled, and successful clipboard writes. -/
structure OpEffects where
  toasts : List Toast := []
  stoppedStreams : List Nat := []
  consoleError : Bool := false
  scheduledTimeouts : List Nat := []
  clipboardWrites : List String := []
deriving Repr, DecidableEq

/-! ## Capture controller (source lines 403-443) -/

/-- The source function `startCamera`: `res` is the outcome of the awaited
`getUserMedia` call — `some id` for a granted stream, `none` for a
rejection.  On success the stream ref is overwritten (the previous stream,
if any, is NOT stopped) and the active flag is set; on rejection the catch
block logs and toasts a destructive error, touching no state. -/
def startCamera (s : ComponentState) (res : Option Nat) : ComponentState × OpEffects :=
  match res with
  | some streamId =>
    ({ s with streamRef := some streamId, isActive := true },
     { toasts := [cameraStartedToast] })
  | none =>
    (s, { toasts := [cameraErrorToast], consoleError := true })

/-- The source function `stopCamera`: stops every track of the held stream (when one is
held), clears the ref, flips the active flag off, toasts. -/
def stopCamera (s : ComponentState) : ComponentState × OpEffects :=
  let stopped := match s.streamRef with
    | some streamId => [streamId]
    | none => []
  ({ s with streamRef := none, isActive := false },
   { toasts := [cameraStoppedToast], stoppedStreams := stopped })

/-! ## Point dragger (source lines 356-394) -/

/-- The container's bounding client rect. -/
structure RectQ where
  left : ℚ
  top : ℚ
  width : ℚ
  height : ℚ
deriving Repr, DecidableEq

/-- The fields of a `MouseEvent` the handler reads. -/
structure MouseEvt where
  clientX : ℚ
  clientY : ℚ
deriving Repr, DecidableEq

/-- The expression `Math.max(0, Math.min(100, v))` — the clamping on source
lines 371-372. -/
def clampPct (v : ℚ) : ℚ :=
  max 0 (min 100 v)

/-- The source function `handleMouseDown(point)`: `preventDefault` then `setIsDragging(point)`. -/
def handleMouseDown (t : DragTarget) (s : ComponentState) : ComponentState :=
  { s with isDragging := some t }

/-- The source function `handleMouseMove` (lines 361-379): no-op unless a drag is in
progress and the container ref is set; otherwise convert the pointer
position to container-relative percentages, clamp both axes to [0,100]
and overwrite the dragged point. -/
def handleMouseMove (rect : Option RectQ) (e : MouseEvt) (s : ComponentState) : ComponentState :=
  match s.isDragging, rect with
  | none, _ => s
  | _, none => s
  | some target, some r =>
    let x := (e.clientX - r.left) / r.width * 100
    let y := (e.clientY - r.top) / r.height * 100
    let clampedX := clampPct x
    let clampedY := clampPct y
    match target with
    | .top => { s with topPoint := ⟨clampedX, clampedY⟩ }
    | .bottom => { s with bottomPoint := ⟨clampedX, clampedY⟩ }

/-- The source function `handleMouseUp`: `setIsDragging(null)`. -/
def handleMouseUp (s : ComponentState) : ComponentState :=
  { s with isDragging := none }

/-- One pointer event as dispatched to the drag handlers: a pointer-down
on a marker, a global pointer-move (with the container rect observed at
that moment), or a global pointer-up. -/
inductive DragEvent where
  | down (t : DragTarget)
  | move (rect : Option RectQ) (e : MouseEvt)
  | up

/-- Dispatch one drag event to its handler. -/
def dragStep (s : ComponentState) : DragEvent → ComponentState
  | .down t => handleMouseDown t s
  | .move rect e => handleMouseMove rect e s
  | .up => handleMouseUp s

/-- Run a sequence of drag events from a state. -/
def runDrag (s : ComponentState) (evs : List DragEvent) : ComponentState :=
  evs.foldl dragStep s

/-- A sampling point has both coordinates in [0,100]. -/
def pointClamped (p : SamplingPoint) : Prop :=
  0 ≤ p.x ∧ p.x ≤ 100 ∧ 0 ≤ p.y ∧ p.y ≤ 100

/-! ## Clipboard and copy confirmation (source lines 445-457)

`copyToClipboard` awaits `navigator.clipboard.writeText(hex)`; on success
it sets `copiedColor` to the hex, schedules `setTimeout(() =>
setCopiedColor(null), 2000)` and toasts; the catch block only logs.
`pendingClears` records the absolute fire times of the scheduled
clear callbacks. -/

/-- The copy-confirmation state: the `copiedColor` flag plus the pending
`setTimeout` clear callbacks, as absolute fire times in ms. -/
structure ClipState where
  copiedColor : Option String
  pendingClears : List Nat
deriving Repr, DecidableEq

/-- Before any copy: no flag, no pending timers. -/
def clipInit : ClipState :=
  { copiedColor := none, pendingClears := [] }

/-- The source function `copyToClipboard(hex)` invoked at absolute time `now`; `ok` is
whether the awaited clipboard write resolved.  On success: flag set to
`hex`, a clear callback scheduled 2000ms out, toast emitted.  On
rejection: `console.error` only. -/
def copyToClipboard (now : Nat) (hex : String) (ok : Bool) (s : ClipState) :
    ClipState × OpEffects :=
  if ok then
    ({ copiedColor := some hex, pendingClears := s.pendingClears ++ [now + 2000] },
     { toasts := [copiedToast hex], scheduledTimeouts := [2000], clipboardWrites := [hex] })
  else
    (s, { consoleError := true })

/-- The clear callback scheduled for fire time `t` runs: it executes
`setCopiedColor(null)` unconditionally, whatever hex is currently
flagged. -/
def fireClear (t : Nat) (s : ClipState) : ClipState :=
  if t ∈ s.pendingClears then
    { copiedColor := none, pendingClears := s.pendingClears.erase t }
  else s

/-! ## Helper lemmas -/

set_option maxRecDepth 8000 in
/-- For every byte value the padded pair has length 2 and only lowercase
hex digits. -/
theorem hexPair_spec :
    ∀ v, v < 256 → (hexPair v).length = 2 ∧ (hexPair v).data.all isLowerHexDigit = true := by
  decide

/-- The data of a joined hex triple is the hash followed by the three
pairs' data. -/
theorem rgbToHex_data (r g b : Nat) :
    (rgbToHex r g b).data
      = '#' :: ((hexPair r).data ++ (hexPair g).data ++ (hexPair b).data) := by
  simp [rgbToHex, String.join, String.data_append, List.append_assoc]

/-- Clamping lands in the interval [0, 100]. -/
theorem clampPct_mem (v : ℚ) : 0 ≤ clampPct v ∧ clampPct v ≤ 100 :=
  ⟨le_max_left 0 _, max_le (by norm_num) (min_le_left 100 v)⟩

/-- Both stored sampling points are in range. -/
def stateClamped (s : ComponentState) : Prop :=
  pointClamped s.topPoint ∧ pointClamped s.bottomPoint

/-- Every single drag event preserves the point-range invariant. -/
theorem dragStep_preserves (s : ComponentState) (e : DragEvent)
    (h : stateClamped s) : stateClamped (dragStep s e) := by
  cases e with
  | down t => exact h
  | up => exact h
  | move rect ev =>
    show stateClamped (handleMouseMove rect ev s)
    cases hd : s.isDragging with
    | none => simpa [handleMouseMove, hd] using h
    | some target =>
      cases rect with
      | none => simpa [handleMouseMove, hd] using h
      | some r =>
        cases target with
        | top =>
          refine ⟨?_, ?_⟩
          · simp only [handleMouseMove, hd, pointClamped]
            exact ⟨(clampPct_mem _).1, (clampPct_mem _).2,
                   (clampPct_mem _).1, (clampPct_mem _).2⟩
          · simpa [handleMouseMove, hd] using h.2
        | bottom =>
          refine ⟨?_, ?_⟩
          · simpa [handleMouseMove, hd] using h.1
          · simp only [handleMouseMove, hd, pointClamped]
            exact ⟨(clampPct_mem _).1, (clampPct_mem _).2,
                   (clampPct_mem _).1, (clampPct_mem _).2⟩

/-- A run of drag events preserves the point-range invariant. -/
theorem runDrag_preserves (evs : List DragEvent) (s : ComponentState)
    (h : stateClamped s) : stateClamped (runDrag s evs) := by
  induction evs generalizing s with
  | nil => exact h
  | cons e rest ih => exact ih (dragStep s e) (dragStep_preserves s e h)

/-- A concrete environment in which every ref is unavailable. -/
def envNone : Env :=
  { video := none, canvasPresent := false, ctxAvailable := false }

/-! ## Claims -/

/-- C9: the percentage-to-pixel conversion is floor((percent/100) *
dimension) computed independently per axis, and the point (50, 20)
against a 1280x720 frame converts to the pixel coordinate (640, 144). -/
theorem C9_percent_to_pixel :
    (∀ (p : ℚ) (d : Nat), percentToPixel p d = ⌊p / 100 * d⌋)
    ∧ percentToPixel 50 1280 = 640
    ∧ percentToPixel 20 720 = 144 := by
  refine ⟨fun p d => rfl, ?_, ?_⟩ <;> norm_num [percentToPixel]

/-- C2: for every channel value below 256 the conversion yields exactly
two lowercase hex digits, zero-padded (5 to "05", 255 to "ff"), and
`rgbToHex` concatenates the three pairs after a hash into a 7-character
string, i.e. 6 hex digits. -/
theorem C2_hex_conversion :
    (∀ v, v < 256 → (hexPair v).length = 2 ∧ (hexPair v).data.all isLowerHexDigit = true)
    ∧ hexPair 5 = "05"
    ∧ hexPair 255 = "ff"
    ∧ (∀ r g b : Nat, (rgbToHex r g b).data
        = '#' :: ((hexPair r).data ++ (hexPair g).data ++ (hexPair b).data))
    ∧ (∀ r g b : Nat, r < 256 → g < 256 → b < 256 → (rgbToHex r g b).length = 7) := by
  refine ⟨hexPair_spec, by decide, by decide, rgbToHex_data, ?_⟩
  intro r g b hr hg hb
  have lr : (hexPair r).data.length = 2 := (hexPair_spec r hr).1
  have lg : (hexPair g).data.length = 2 := (hexPair_spec g hg).1
  have lb : (hexPair b).data.length = 2 := (hexPair_spec b hb).1
  show (rgbToHex r g b).data.length = 7
  rw [rgbToHex_data]
  simp [lr, lg, lb]

/-- C2 witness: the channel value 255 satisfies the bound and its pair is
two lowercase hex digits. -/
theorem C2_hex_conversion_witness :
    (hexPair 255).length = 2 ∧ (hexPair 255).data.all isLowerHexDigit = true :=
  C2_hex_conversion.1 255 (by decide)

/-- C1 counterexample: the percentage 100 is allowed by the clamp, yet it
converts against width 1280 to the pixel coordinate 1280, which is not
below the width — the coordinate is out of range. -/
theorem C1_counterexample :
    (0:ℚ) ≤ 100 ∧ (100:ℚ) ≤ 100
    ∧ percentToPixel 100 1280 = 1280
    ∧ ¬ percentToPixel 100 1280 < 1280 := by
  norm_num [percentToPixel]

/-- C1 (amended): for a percentage in [0,100] and a positive dimension
the converted coordinate lies in [0, dimension]; it is strictly below the
dimension whenever the percentage is strictly below 100, and only the
boundary percentage 100 produces the out-of-range coordinate equal to the
dimension. -/
theorem C1_pixel_in_frame_amended (p : ℚ) (d : Nat)
    (h0 : 0 ≤ p) (h100 : p ≤ 100) (hd : 0 < d) :
    0 ≤ percentToPixel p d
    ∧ percentToPixel p d ≤ d
    ∧ (p < 100 → percentToPixel p d < d) := by
  have hd' : (0:ℚ) < d := by exact_mod_cast hd
  refine ⟨?_, ?_, ?_⟩
  · exact Int.le_floor.mpr (by push_cast; positivity)
  · have hx : p / 100 * d ≤ (d:ℚ) := by
      have h1 : p / 100 ≤ 1 := (div_le_one (by norm_num)).mpr h100
      exact mul_le_of_le_one_left (le_of_lt hd') h1
    have := Int.floor_le_floor hx
    simpa [percentToPixel] using this
  · intro hlt
    have h1 : p / 100 < 1 := (div_lt_one (by norm_num)).mpr hlt
    have hx : p / 100 * d < (d:ℚ) := mul_lt_of_lt_one_left hd' h1
    exact Int.floor_lt.mpr (by push_cast; exact hx)

/-- C1 witness: percentage 50 against width 1280 stays inside the
frame. -/
theorem C1_pixel_in_frame_amended_witness :
    0 ≤ percentToPixel 50 1280
    ∧ percentToPixel 50 1280 ≤ 1280
    ∧ ((50:ℚ) < 100 → percentToPixel 50 1280 < 1280) :=
  C1_pixel_in_frame_amended 50 1280 (by decide) (by decide) (by decide)

/-- C3: clamping always lands in [0,100]; a move during a drag always
writes a clamped point whatever the raw pointer coordinates; and after
any sequence of drag events from the initial state both stored points
satisfy 0 ≤ x ≤ 100 and 0 ≤ y ≤ 100. -/
theorem C3_drag_clamped :
    (∀ v : ℚ, 0 ≤ clampPct v ∧ clampPct v ≤ 100)
    ∧ (∀ (r : RectQ) (e : MouseEvt) (s : ComponentState),
        pointClamped (handleMouseMove (some r) e (handleMouseDown .top s)).topPoint)
    ∧ (∀ (r : RectQ) (e : MouseEvt) (s : ComponentState),
        pointClamped (handleMouseMove (some r) e (handleMouseDown .bottom s)).bottomPoint)
    ∧ (∀ evs : List DragEvent, stateClamped (runDrag initialState evs)) := by
  refine ⟨clampPct_mem, ?_, ?_, ?_⟩
  · intro r e s
    simp only [handleMouseMove, handleMouseDown, pointClamped]
    exact ⟨(clampPct_mem _).1, (clampPct_mem _).2, (clampPct_mem _).1, (clampPct_mem _).2⟩
  · intro r e s
    simp only [handleMouseMove, handleMouseDown, pointClamped]
    exact ⟨(clampPct_mem _).1, (clampPct_mem _).2, (clampPct_mem _).1, (clampPct_mem _).2⟩
  · intro evs
    refine runDrag_preserves evs initialState ⟨?_, ?_⟩ <;>
      exact ⟨by norm_num [initialState], by norm_num [initialState],
             by norm_num [initialState], by norm_num [initialState]⟩

/-- C4: when the camera request rejects, `startCamera` leaves the state
untouched — from an inactive state the active flag stays false and the
stream ref stays null, no sampling interval runs — and it emits the
destructive camera-error toast. -/
theorem C4_start_failure (s : ComponentState)
    (hactive : s.isActive = false) (hstream : s.streamRef = none) :
    (startCamera s none).1 = s
    ∧ (startCamera s none).1.isActive = false
    ∧ (startCamera s none).1.streamRef = none
    ∧ samplingTimerActive (startCamera s none).1 = false
    ∧ (startCamera s none).2.toasts = [cameraErrorToast]
    ∧ cameraErrorToast.destructive = true
    ∧ (startCamera s none).2.consoleError = true :=
  ⟨rfl, hactive, hstream, hactive, rfl, rfl, rfl⟩

/-- C4 witness: the failed start applied to the initial state. -/
theorem C4_start_failure_witness :
    (startCamera initialState none).1 = initialState
    ∧ (startCamera initialState none).1.isActive = false
    ∧ (startCamera initialState none).1.streamRef = none
    ∧ samplingTimerActive (startCamera initialState none).1 = false
    ∧ (startCamera initialState none).2.toasts = [cameraErrorToast]
    ∧ cameraErrorToast.destructive = true
    ∧ (startCamera initialState none).2.consoleError = true :=
  C4_start_failure initialState rfl rfl

/-- C5 (code bug): two successful starts in a row — stream 1 then
stream 2 — leave the component holding stream 2 while neither call
stopped stream 1's tracks and the second start was not refused (it went
ahead and overwrote the ref), so stream 1 leaks. -/
theorem C5_double_start_leaks :
    (startCamera initialState (some 1)).1.streamRef = some 1
    ∧ (startCamera initialState (some 1)).1.isActive = true
    ∧ (startCamera (startCamera initialState (some 1)).1 (some 2)).1.streamRef = some 2
    ∧ (startCamera (startCamera initialState (some 1)).1 (some 2)).1.isActive = true
    ∧ (startCamera initialState (some 1)).2.stoppedStreams = []
    ∧ (startCamera (startCamera initialState (some 1)).1 (some 2)).2.stoppedStreams = []
    ∧ (1 : Nat) ≠ 2 :=
  ⟨rfl, rfl, rfl, rfl, rfl, rfl, by decide⟩

/-- C6: stopping the camera flips the active flag off, clears the stream
ref, stops the held stream's tracks and cancels the sampling interval,
and any sampling tick invoked afterwards leaves the state — in
particular both colors — unchanged. -/
theorem C6_stop_halts_sampling (s : ComponentState) (streamId : Nat)
    (h : s.streamRef = some streamId) :
    (stopCamera s).1.isActive = false
    ∧ (stopCamera s).1.streamRef = none
    ∧ (stopCamera s).2.stoppedStreams = [streamId]
    ∧ samplingTimerActive (stopCamera s).1 = false
    ∧ ∀ env : Env, updateColors env (stopCamera s).1 = (stopCamera s).1 := by
  refine ⟨rfl, rfl, by simp [stopCamera, h], rfl, ?_⟩
  intro env
  cases hv : env.video with
  | none => simp [updateColors, hv]
  | some v => simp [updateColors, hv, stopCamera]

/-- C6 witness: stopping an active state holding stream 7. -/
theorem C6_stop_halts_sampling_witness :
    (stopCamera { initialState with isActive := true, streamRef := some 7 }).1.isActive = false
    ∧ (stopCamera { initialState with isActive := true, streamRef := some 7 }).1.streamRef = none
    ∧ (stopCamera { initialState with isActive := true, streamRef := some 7 }).2.stoppedStreams = [7]
    ∧ samplingTimerActive (stopCamera { initialState with isActive := true, streamRef := some 7 }).1 = false
    ∧ updateColors envNone (stopCamera { initialState with isActive := true, streamRef := some 7 }).1
        = (stopCamera { initialState with isActive := true, streamRef := some 7 }).1 := by
  have h := C6_stop_halts_sampling { initialState with isActive := true, streamRef := some 7 } 7 rfl
  exact ⟨h.1, h.2.1, h.2.2.1, h.2.2.2.1, h.2.2.2.2 envNone⟩

/-- A first copied hex value, for the overlapping-copy trace. -/
def hexA : String := "#aabbcc"

/-- A second copied hex value, for the overlapping-copy trace. -/
def hexB : String := "#112233"

/-- C7 (code bug): copy `hexA` succeeds at t = 0 and copy `hexB`
succeeds at t = 1000; when the first copy's clear callback fires at
t = 2000 it nulls the flag unconditionally, wiping the second copy's
confirmation even though its own 2-second window only ends at
t = 3000. -/
theorem C7_overlapping_copy_clears_early :
    (copyToClipboard 0 hexA true clipInit).1.copiedColor = some hexA
    ∧ (copyToClipboard 0 hexA true clipInit).1.pendingClears = [2000]
    ∧ (copyToClipboard 1000 hexB true
        (copyToClipboard 0 hexA true clipInit).1).1.copiedColor = some hexB
    ∧ (copyToClipboard 1000 hexB true
        (copyToClipboard 0 hexA true clipInit).1).1.pendingClears = [2000, 3000]
    ∧ (fireClear 2000 (copyToClipboard 1000 hexB true
        (copyToClipboard 0 hexA true clipInit).1).1).copiedColor = none
    ∧ 2000 < 1000 + 2000 := by
  refine ⟨rfl, rfl, rfl, rfl, ?_, by decide⟩
  decide

/-- C8: a rejected clipboard write only logs — the state (flag and
pending timers alike) is returned unchanged, no toast is emitted, no
timeout is scheduled and nothing reaches the clipboard. -/
theorem C8_copy_failure_silent (now : Nat) (hex : String) (s : ClipState) :
    (copyToClipboard now hex false s).1 = s
    ∧ (copyToClipboard now hex false s).1.copiedColor = s.copiedColor
    ∧ (copyToClipboard now hex false s).1.pendingClears = s.pendingClears
    ∧ (copyToClipboard now hex false s).2.consoleError = true
    ∧ (copyToClipboard now hex false s).2.toasts = []
    ∧ (copyToClipboard now hex false s).2.scheduledTimeouts = []
    ∧ (copyToClipboard now hex false s).2.clipboardWrites = [] :=
  ⟨rfl, rfl, rfl, rfl, rfl, rfl, rfl⟩

/-- C10: sampling is total — with the video ref, the canvas ref or the
2D context unavailable `getColorAtPoint` returns the black fallback —
and initially both color samples are that same black value while the
points sit at (50, 20) and (50, 80). -/
theorem C10_black_fallback :
    (∀ (env : Env) (x y : ℤ),
        env.video = none ∨ env.canvasPresent = false ∨ env.ctxAvailable = false →
        getColorAtPoint env x y = black)
    ∧ black = { hex := "#000000", rgb := ⟨0, 0, 0⟩ }
    ∧ rgbToHex 0 0 0 = "#000000"
    ∧ initialState.topColor = black
    ∧ initialState.bottomColor = black
    ∧ initialState.topPoint = ⟨50, 20⟩
    ∧ initialState.bottomPoint = ⟨50, 80⟩ := by
  refine ⟨?_, rfl, by decide, rfl, rfl, rfl, rfl⟩
  intro env x y h
  obtain ⟨video, canvas, ctx⟩ := env
  dsimp only at h
  rcases h with h | h | h
  · subst h
    simp [getColorAtPoint]
  · subst h
    cases video <;> simp [getColorAtPoint]
  · subst h
    cases video <;> cases canvas <;> simp [getColorAtPoint]

/-- C10 witness: with every ref unavailable the read at (3, 4) is
black. -/
theorem C10_black_fallback_witness :
    getColorAtPoint envNone 3 4 = black :=
  C10_black_fallback.1 envNone 3 4 (Or.inl rfl)

end PixelPicker
